import Mathlib

/-!
Verification of the Structured Response Extractor
(`src/enterprise_ai_demo1_websearch/src/code_explainer_service.py`).

The Python module is shallowly embedded below.  Python values that can come
out of `json.loads`, or that an injected chat client can return as a response
envelope, are modelled by the inductive type `PyVal`.  Modelling notes:

* JSON numbers are modelled in the integer fragment: the embedded
  `json_loads` accepts exactly the JSON grammar restricted to integer
  numerals (no `.`/`e`/`E` forms, no `NaN`/`Infinity`).  Floating point is
  outside the embedding; no claim under verification depends on non-integer
  numerals.
* `str.strip` is modelled by `pyStrip`, which trims the ASCII whitespace
  characters (space, tab, LF, CR, vertical tab, form feed); Python
  additionally strips the unicode space code points.
* `repr` of a string escapes the backslash, the chosen quote and the common
  control characters tab/newline/carriage-return; escaping of other
  non-printable characters is out of scope (no claim depends on it).
* `\uXXXX` escapes inside JSON strings are decoded with `Char.ofNat`;
  surrogate-pair combination is out of scope.
-/

namespace CodeExplainer

/-- Characters that are syntactically awkward in this development are named. -/
def quoteChar : Char := Char.ofNat 34

def squoteChar : Char := Char.ofNat 39

def backslashChar : Char := Char.ofNat 92

def lbraceChar : Char := Char.ofNat 123

def rbraceChar : Char := Char.ofNat 125

/-- Python values, as produced by `json.loads` and as passed around by the
service (`None`, `bool`, `int`, `str`, `list`, `dict` with string keys — the
response envelope is typed `Dict[str, Any]` in the source). -/
inductive PyVal where
  | null
  | bool (b : Bool)
  | int (n : Int)
  | str (s : String)
  | list (elts : List PyVal)
  | dict (kvs : List (String × PyVal))
deriving Repr

/-- Python truthiness (`bool(v)`) for the modelled values: `None`, `False`,
`0`, `""`, `[]` and an empty dict are falsy, everything else is truthy. -/
def pyTruthy : PyVal → Bool
  | .null => false
  | .bool b => b
  | .int n => n != 0
  | .str s => s != ""
  | .list xs => !xs.isEmpty
  | .dict kvs => !kvs.isEmpty

/-- Python `x or y` for `x : Optional[str]`, `y : str`: `y` when `x` is
`None` or the empty string (both falsy), else the string in `x`. -/
def pyOrStr (x : Option String) (y : String) : String :=
  match x with
  | some s => if s = "" then y else s
  | none => y

/-- Python `sep.join(parts)`. -/
def pyJoin (sep : String) : List String → String
  | [] => ""
  | [x] => x
  | x :: xs => x ++ sep ++ pyJoin sep xs

/-- Characters Python's `str.strip()` removes (the ASCII part; see the
module comment). -/
def isPyStripWs (c : Char) : Bool :=
  c = ' ' || c = '\t' || c = '\n' || c = '\r' || c = Char.ofNat 11 || c = Char.ofNat 12

/-- Python `s.strip()`: remove leading and trailing whitespace. -/
def pyStrip (s : String) : String :=
  String.mk (((s.toList.dropWhile isPyStripWs).reverse.dropWhile isPyStripWs).reverse)

/-- One escaped character of a Python string `repr`, with quote `q`. -/
def pyEscapeChar (q : Char) (c : Char) : String :=
  if c = backslashChar then String.mk [backslashChar, backslashChar]
  else if c = q then String.mk [backslashChar, q]
  else if c = '\n' then String.mk [backslashChar, 'n']
  else if c = '\r' then String.mk [backslashChar, 'r']
  else if c = '\t' then String.mk [backslashChar, 't']
  else String.mk [c]

/-- Python `repr` of a string: single quotes, switching to double quotes when
the text contains a single quote but no double quote. -/
def pyReprOfString (s : String) : String :=
  let cs := s.toList
  let q := if cs.contains squoteChar && !(cs.contains quoteChar) then quoteChar else squoteChar
  String.mk [q] ++ String.join (cs.map (pyEscapeChar q)) ++ String.mk [q]

mutual

/-- Python `repr` of a modelled value (used by `str` on containers). -/
def pyRepr : PyVal → String
  | .null => "None"
  | .bool true => "True"
  | .bool false => "False"
  | .int n => toString n
  | .str s => pyReprOfString s
  | .list xs => "[" ++ pyReprList xs ++ "]"
  | .dict kvs => String.mk [lbraceChar] ++ pyReprDict kvs ++ String.mk [rbraceChar]

/-- Comma-separated `repr` of list elements. -/
def pyReprList : List PyVal → String
  | [] => ""
  | [x] => pyRepr x
  | x :: xs => pyRepr x ++ ", " ++ pyReprList xs

/-- Comma-separated `repr` of dict entries. -/
def pyReprDict : List (String × PyVal) → String
  | [] => ""
  | [(k, v)] => pyReprOfString k ++ ": " ++ pyRepr v
  | (k, v) :: kvs => pyReprOfString k ++ ": " ++ pyRepr v ++ ", " ++ pyReprDict kvs

end

/-- Python `str(v)`: the identity on strings, `repr` otherwise. -/
def pyStr : PyVal → String
  | .str s => s
  | v => pyRepr v

/-! ## `json.loads`

A JSON reader equivalent to Python's `json.loads` on the modelled value
domain (see the module comment for the integer-numeral restriction).
Recursion is by fuel; `json_loads` supplies more fuel than any input can
consume, since every recursive call below follows the consumption of at
least one input character within at most three call layers. -/

/-- JSON insignificant whitespace (space, tab, LF, CR). -/
def isJsonWs (c : Char) : Bool :=
  c = ' ' || c = '\t' || c = '\n' || c = '\r'

/-- Drop leading JSON whitespace. -/
def skipWs : List Char → List Char
  | [] => []
  | c :: cs => if isJsonWs c then skipWs cs else c :: cs

/-- Value of one hex digit. -/
def hexVal (c : Char) : Option Nat :=
  if c.isDigit then some (c.toNat - 48)
  else if 'a' ≤ c && c ≤ 'f' then some (c.toNat - 87)
  else if 'A' ≤ c && c ≤ 'F' then some (c.toNat - 55)
  else none

/-- Numeric value of a digit string. -/
def digitsToNat (ds : List Char) : Nat :=
  ds.foldl (fun acc c => 10 * acc + (c.toNat - 48)) 0

/-- Split off a maximal run of decimal digits. -/
def takeDigits : List Char → List Char × List Char
  | [] => ([], [])
  | c :: cs =>
    if c.isDigit then
      let p := takeDigits cs
      (c :: p.1, p.2)
    else ([], c :: cs)

/-- JSON unsigned integer numeral: `0`, or a nonzero digit followed by
digits (a leading `0` may not be followed by digits — the digit left behind
then makes the surrounding parse fail, as in Python). -/
def parseJsonNat (cs : List Char) : Option (Nat × List Char) :=
  match cs with
  | [] => none
  | c :: rest =>
    if c = '0' then some (0, rest)
    else if c.isDigit then
      let p := takeDigits rest
      some (digitsToNat (c :: p.1), p.2)
    else none

/-- Reject a numeral continued by `.`/`e`/`E`: such numerals are floats in
Python, which are outside this embedding, so the whole parse fails. -/
def guardIntTail : Int × List Char → Option (Int × List Char)
  | (n, []) => some (n, [])
  | (n, c :: cs) =>
    if c = '.' || c = 'e' || c = 'E' then none else some (n, c :: cs)

/-- JSON integer numeral with optional leading minus sign. -/
def parseJsonInt (cs : List Char) : Option (Int × List Char) :=
  match cs with
  | [] => none
  | c :: rest =>
    if c = '-' then
      (parseJsonNat rest).bind fun p => guardIntTail (-(p.1 : Int), p.2)
    else
      (parseJsonNat cs).bind fun p => guardIntTail ((p.1 : Int), p.2)

/-- Consume an exact character sequence. -/
def dropExact : List Char → List Char → Option (List Char)
  | [], cs => some cs
  | t :: ts, c :: cs => if c = t then dropExact ts cs else none
  | _ :: _, [] => none

/-- One simple string escape (`\"  \\  \/  \b  \f  \n  \r  \t`). -/
def escSimple (e : Char) : Option Char :=
  if e = quoteChar then some quoteChar
  else if e = backslashChar then some backslashChar
  else if e = '/' then some '/'
  else if e = 'b' then some (Char.ofNat 8)
  else if e = 'f' then some (Char.ofNat 12)
  else if e = 'n' then some '\n'
  else if e = 'r' then some '\r'
  else if e = 't' then some '\t'
  else none

/-- Body of a JSON string literal, after the opening quote.  Unescaped
control characters are rejected (Python's default strict mode). -/
def jStrBody : Nat → List Char → Option (String × List Char)
  | 0, _ => none
  | fuel + 1, cs =>
    match cs with
    | [] => none
    | c :: rest =>
      if c = quoteChar then some ("", rest)
      else if c = backslashChar then
        match rest with
        | [] => none
        | e :: rest2 =>
          if e = 'u' then
            match rest2 with
            | h1 :: h2 :: h3 :: h4 :: rest3 => do
              let a ← hexVal h1
              let b ← hexVal h2
              let c2 ← hexVal h3
              let d ← hexVal h4
              let p ← jStrBody fuel rest3
              some (String.mk [Char.ofNat (((a * 16 + b) * 16 + c2) * 16 + d)] ++ p.1, p.2)
            | _ => none
          else do
            let ec ← escSimple e
            let p ← jStrBody fuel rest2
            some (String.mk [ec] ++ p.1, p.2)
      else if c.toNat < 32 then none
      else do
        let p ← jStrBody fuel rest
        some (String.mk [c] ++ p.1, p.2)

/-- Update an association list at a key, else append: Python dict insertion,
so that duplicate object keys keep the first position and the last value. -/
def assocUpdate (kvs : List (String × PyVal)) (k : String) (v : PyVal) :
    List (String × PyVal) :=
  match kvs with
  | [] => [(k, v)]
  | (k0, v0) :: rest =>
    if k0 = k then (k0, v) :: rest else (k0, v0) :: assocUpdate rest k v

/-- Fold raw object members into a Python dict. -/
def buildDict (ms : List (String × PyVal)) : List (String × PyVal) :=
  ms.foldl (fun acc kv => assocUpdate acc kv.1 kv.2) []

mutual

/-- One JSON value (consuming leading whitespace). -/
def jValue : Nat → List Char → Option (PyVal × List Char)
  | 0, _ => none
  | fuel + 1, cs =>
    match skipWs cs with
    | [] => none
    | c :: rest =>
      if c = lbraceChar then jObjBody fuel rest
      else if c = '[' then jArrBody fuel rest
      else if c = quoteChar then
        (jStrBody fuel rest).map fun p => (PyVal.str p.1, p.2)
      else if c = 't' then
        (dropExact ['r', 'u', 'e'] rest).map fun r => (PyVal.bool true, r)
      else if c = 'f' then
        (dropExact ['a', 'l', 's', 'e'] rest).map fun r => (PyVal.bool false, r)
      else if c = 'n' then
        (dropExact ['u', 'l', 'l'] rest).map fun r => (PyVal.null, r)
      else if c = '-' || c.isDigit then
        (parseJsonInt (c :: rest)).map fun p => (PyVal.int p.1, p.2)
      else none

/-- JSON array after the opening bracket. -/
def jArrBody : Nat → List Char → Option (PyVal × List Char)
  | 0, _ => none
  | fuel + 1, cs =>
    match skipWs cs with
    | ']' :: rest => some (PyVal.list [], rest)
    | cs2 => (jArrElems fuel cs2).map fun p => (PyVal.list p.1, p.2)

/-- Nonempty comma-separated array elements, up to the closing bracket. -/
def jArrElems : Nat → List Char → Option (List PyVal × List Char)
  | 0, _ => none
  | fuel + 1, cs => do
    let p ← jValue fuel cs
    match skipWs p.2 with
    | ',' :: r2 =>
      (jArrElems fuel r2).map fun q => (p.1 :: q.1, q.2)
    | ']' :: r2 => some ([p.1], r2)
    | _ => none

/-- JSON object after the opening brace. -/
def jObjBody : Nat → List Char → Option (PyVal × List Char)
  | 0, _ => none
  | fuel + 1, cs =>
    match skipWs cs with
    | [] => none
    | c :: rest =>
      if c = rbraceChar then some (PyVal.dict [], rest)
      else
        (jObjMembers fuel (c :: rest)).map fun p => (PyVal.dict (buildDict p.1), p.2)

/-- Nonempty comma-separated object members, up to the closing brace. -/
def jObjMembers : Nat → List Char → Option (List (String × PyVal) × List Char)
  | 0, _ => none
  | fuel + 1, cs =>
    match skipWs cs with
    | [] => none
    | c :: rest =>
      if c = quoteChar then do
        let kp ← jStrBody fuel rest
        match skipWs kp.2 with
        | ':' :: r2 => do
          let vp ← jValue fuel r2
          match skipWs vp.2 with
          | ',' :: r4 =>
            (jObjMembers fuel r4).map fun q => ((kp.1, vp.1) :: q.1, q.2)
          | c2 :: r4 =>
            if c2 = rbraceChar then some ([(kp.1, vp.1)], r4) else none
          | [] => none
        | _ => none
      else none

end

/-- Python `json.loads`: parse one JSON document; only whitespace may
follow; any error (Python's `json.JSONDecodeError`) is `none`. -/
def json_loads (s : String) : Option PyVal :=
  match jValue (4 * s.length + 8) s.toList with
  | some (v, rest) => if skipWs rest = [] then some v else none
  | none => none

/-! ## Data model

`ExplainRequest` and `Explanation` live in the repository's `src/models.py`,
which is not part of the sources available here; their fields are determined
by every use site in `code_explainer_service.py` and by the spec.  Modelled
from the spec: Request is { content (required), optional language hint,
optional extra context, integer max-output-size }; Result is { summary,
steps, pitfalls, optional detected-language }. -/

/-- The request dataclass (`src/models.py`, `ExplainRequest`). -/
structure ExplainRequest where
  code : String
  language : Option String
  extra_context : Option String
  max_tokens : Int
deriving DecidableEq, Repr

/-- The result dataclass (`src/models.py`, `Explanation`). -/
structure Explanation where
  summary : String
  steps : List String
  pitfalls : List String
  detected_language : Option String
deriving DecidableEq, Repr

/-- One chat message (the `{"role": ..., "content": ...}` dicts built by
`_build_messages`). -/
structure Message where
  role : String
  content : String
deriving DecidableEq, Repr

/-- The argument record of one `client.chat(...)` invocation.  The source
also passes `temperature=0.2`, a float constant that is forwarded
unexamined; floats are outside the embedding, so the field is omitted. -/
structure ChatCall where
  messages : List Message
  model : String
  max_tokens : Int
deriving DecidableEq, Repr

/-- The injected chat capability: its optional `default_model` attribute
(`getattr(client, "default_model", None)`) and its `chat` method, which
returns a response envelope or raises.  Exceptions raised inside the
capability are opaque to the service and are modelled by a `Nat` tag. -/
structure Client where
  default_model : Option String
  chat : ChatCall → Except Nat PyVal

/-- The failure modes of `explain_code`.  `invalidInput` is the
`ValueError("Code must not be empty.")` raised on line 108;
`invalidModelOutput` is the `logger.error(..., content[:2000])` diagnostic
followed by `ValueError("Model did not return valid JSON.")` on lines
137-138; `jsonDecodeError` is a `json.JSONDecodeError` escaping the salvage
`json.loads` on line 133 (in Python a subclass of `ValueError`, but with the
decoder's own message and without the diagnostic log); `attributeError` is
the `AttributeError` from calling `.get` on a non-dict on line 141;
`typeError` is the `TypeError` from `json.loads` on a non-string;
`clientError` is any exception propagating out of `client.chat`. -/
inductive PyErr where
  | invalidInput
  | invalidModelOutput (diagnostic : String)
  | jsonDecodeError
  | attributeError
  | typeError
  | clientError (tag : Nat)
deriving DecidableEq, Repr

/-! ## The service operations (`code_explainer_service.py`) -/

/-- The fixed system instruction: `" ".join(system_parts)` (lines 12-20). -/
def system_msg : String :=
  pyJoin " "
    ["You are a patient code tutor.",
     "Respond ONLY as JSON with keys:",
     "summary (string), steps (array of strings),",
     "pitfalls (array of strings), detected_language (string).",
     "Keep it concise and accurate."]

/-- Embedded `_build_messages` (lines 10-34): one system message and one user message
joining the language hint, extra context and fenced code. -/
def _build_messages (req : ExplainRequest) : List Message :=
  let user_msg := pyJoin "\n"
    ["LANGUAGE HINT: " ++ pyOrStr req.language "unknown",
     "EXTRA CONTEXT: " ++ pyOrStr req.extra_context "none",
     "CODE:",
     "```code",
     req.code,
     "```"]
  [⟨"system", system_msg⟩, ⟨"user", user_msg⟩]

/-- The successful lookup path of `_extract_content`:
`response["choices"][0]["message"]["content"]` (line 87).  Any failure of
the subscript chain (wrong constructor, missing key, empty list) raises in
Python and is `none` here.  A Python detail collapsed into failure: when
`response["choices"]` is a string, `[0]` succeeds with a one-character
string, but the following `["message"]` then raises, so the composed chain
fails either way. -/
def envContent (response : PyVal) : Option PyVal :=
  match response with
  | .dict kvs =>
    match kvs.lookup "choices" with
    | some (.list (c0 :: _)) =>
      match c0 with
      | .dict ckvs =>
        match ckvs.lookup "message" with
        | some (.dict mkvs) => mkvs.lookup "content"
        | _ => none
      | _ => none
    | _ => none
  | _ => none

/-- Embedded `_extract_content` (lines 82-90): the envelope path on success, else
`str(response)`. -/
def _extract_content (response : PyVal) : PyVal :=
  match envContent response with
  | some c => c
  | none => .str (pyStr response)

/-- Python `content.find(c)`: index of the first occurrence. -/
def listIndexOfChar (c : Char) : List Char → Option Nat
  | [] => none
  | x :: xs =>
    if x = c then some 0 else (listIndexOfChar c xs).map fun n => n + 1

/-- Python `content.find(c)` over a string (`none` for Python's `-1`). -/
def pyFind (s : String) (c : Char) : Option Nat :=
  listIndexOfChar c s.toList

/-- Python `content.rfind(c)`: index of the last occurrence. -/
def pyRFind (s : String) (c : Char) : Option Nat :=
  match listIndexOfChar c s.toList.reverse with
  | some i => some (s.length - 1 - i)
  | none => none

/-- Python `s[a:b]` for code-point indices `a ≤ b`. -/
def pySlice (s : String) (a b : Nat) : String :=
  String.mk ((s.toList.drop a).take (b - a))

/-- The salvage window of lines 132-133: `start, end = content.find("{"),
content.rfind("}")`, and `content[start : end + 1]` when
`start != -1 and end != -1 and end > start`. -/
def salvage (content : String) : Option String :=
  match pyFind content lbraceChar, pyRFind content rbraceChar with
  | some st, some en => if st < en then some (pySlice content st (en + 1)) else none
  | _, _ => none

/-- The extract step (lines 129-138): `json.loads(content)`, the salvage
re-parse inside the `except json.JSONDecodeError` handler, and the
`logger.error`/`raise ValueError` arm.  A failing salvage `json.loads`
raises outside any handler, hence `jsonDecodeError`. -/
def extractJson (content : String) : Except PyErr PyVal :=
  match json_loads content with
  | some data => .ok data
  | none =>
    match salvage content with
    | some window =>
      match json_loads window with
      | some data => .ok data
      | none => .error .jsonDecodeError
    | none => .error (.invalidModelOutput (content.take 2000))

/-- Python `data.get(k, d)` on a dict. -/
def pyGetOr (kvs : List (String × PyVal)) (k : String) (d : PyVal) : PyVal :=
  match kvs.lookup k with
  | some v => v
  | none => d

/-- Python `data.get(k)` on a dict (`None` when the key is absent). -/
def pyGet (kvs : List (String × PyVal)) (k : String) : PyVal :=
  pyGetOr kvs k .null

/-- The coercion step (lines 141-156): the defensive mapping of the parsed
payload into an `Explanation`.  On a non-dict payload the first `.get`
attribute access raises `AttributeError`. -/
def coerce (data : PyVal) : Except PyErr Explanation :=
  match data with
  | .dict kvs =>
    let summary := pyStrip (pyStr (pyGetOr kvs "summary" (.str "")))
    let steps0 := let v := pyGet kvs "steps"; if pyTruthy v then v else .list []
    let pitfalls0 := let v := pyGet kvs "pitfalls"; if pyTruthy v then v else .list []
    let dl := pyGet kvs "detected_language"
    let steps1 := match steps0 with | PyVal.list xs => xs | v => [PyVal.str (pyStr v)]
    let pitfalls1 := match pitfalls0 with | PyVal.list xs => xs | v => [PyVal.str (pyStr v)]
    .ok ⟨if summary = "" then "No summary provided." else summary,
         steps1.map pyStr,
         pitfalls1.map pyStr,
         if pyTruthy dl then some (pyStr dl) else none⟩
  | _ => .error .attributeError

/-- Line 116: `chosen_model = model or getattr(client, "default_model", None) or
"gpt-4.1-mini"` (line 116). -/
def resolveModel (override : Option String) (defModel : Option String) : String :=
  pyOrStr override (pyOrStr defModel "gpt-4.1-mini")

/-- The pipeline from the `client.chat` invocation to the result (lines
120-156), for the already-built argument record. -/
def chatAndCoerce (client : Client) (call : ChatCall) : Except PyErr Explanation :=
  match client.chat call with
  | .error e => .error (.clientError e)
  | .ok response =>
    match _extract_content response with
    | .str content =>
      match extractJson content with
      | .error e => .error e
      | .ok data => coerce data
    | _ => .error .typeError

/-- Embedded `explain_code` (lines 93-156).  The second component is the list of
`client.chat` invocations the call performs, in order (the state the fakes
in the repository's tests record); the first is the returned `Explanation`
or the raised exception.  The `logger` calls are side-effect-free for the
result and are not modelled; the lazy `_get_default_client` resolution is
bypassed because a client is always injected here, as in every test. -/
def explain_code (req : ExplainRequest) (client : Client) (model : Option String) :
    Except PyErr Explanation × List ChatCall :=
  if req.code = "" ∨ pyStrip req.code = "" then
    (.error .invalidInput, [])
  else
    let messages := _build_messages req
    let chosen_model := resolveModel model client.default_model
    let max_tokens := min (max 256 req.max_tokens) 8000
    let call : ChatCall := ⟨messages, chosen_model, max_tokens⟩
    (chatAndCoerce client call, [call])

/-! ## Auxiliary definitions for stating the claims -/

/-- Whether a value is a Python `str`. -/
def isStrVal : PyVal → Bool
  | .str _ => true
  | _ => false

/-- Whether a value is a Python `dict`. -/
def isDictVal : PyVal → Bool
  | .dict _ => true
  | _ => false

/-- A well-shaped response envelope carrying `c` at
`choices[0].message.content`. -/
def mkEnvelope (c : PyVal) : PyVal :=
  .dict [("choices", .list [.dict [("message", .dict [("content", c)])]])]

/-- An envelope whose assistant content is the raw text `s`. -/
def strEnvelope (s : String) : PyVal :=
  mkEnvelope (.str s)

/-- A capability that always answers with the same envelope and declares no
default model. -/
def constClient (resp : PyVal) : Client :=
  ⟨none, fun _ => Except.ok resp⟩

/-- Modelled from the spec: the sequence-field coercion as the amended claim
C4 words it — a present, truthy field is kept as a stringified sequence
(a non-sequence wrapped into one element); an absent or falsy field gives
the empty sequence. -/
def coerceSeqSpec : Option PyVal → List String
  | none => []
  | some v =>
    if pyTruthy v then
      match v with
      | PyVal.list xs => xs.map pyStr
      | w => [pyStr w]
    else []

/-- Modelled from the spec: the default/fallback part of the amended claim
C6 — a declared, non-empty default model wins over the fixed fallback. -/
def pickModelDefault : Option String → String
  | some d => if d = "" then "gpt-4.1-mini" else d
  | none => "gpt-4.1-mini"

/-- Modelled from the spec: the model resolution as the amended claim C6
words it — a supplied, non-empty override wins; otherwise a declared,
non-empty capability default; otherwise the fixed fallback identifier. -/
def pickModelSpec (override defModel : Option String) : String :=
  match override with
  | some s => if s = "" then pickModelDefault defModel else s
  | none => pickModelDefault defModel

/-- Modelled from the spec: the outcomes claim C2 (as stated) permits for a
non-empty request — a result with a non-empty summary, the
`InvalidModelOutput` parse failure, or an error the capability itself
raised. -/
def allowedByClaimC2 : Except PyErr Explanation → Bool
  | .ok e => e.summary != ""
  | .error (.invalidModelOutput _) => true
  | .error (.clientError _) => true
  | .error _ => false

/-! ## Shared lemmas -/

/-- String concatenation unfolds to list concatenation of the data. -/
theorem str_append_data (a b : String) : (a ++ b).data = a.data ++ b.data := rfl

/-- Strings with equal data are equal. -/
theorem str_eq_of_data (a b : String) (h : a.data = b.data) : a = b := by
  cases a
  cases b
  exact congrArg String.mk h

/-- With content that does not strip to nothing, the input-validation guard
of `explain_code` is false. -/
theorem validation_guard_false (s : String) (h : pyStrip s ≠ "") :
    ¬(s = "" ∨ pyStrip s = "") := by
  rintro (hs | hs)
  · rw [hs] at h
    exact h rfl
  · exact h hs

/-- Past validation, `explain_code` performs exactly one chat invocation,
built from the composed messages, the resolved model and the clamped
budget, and returns the outcome of the downstream pipeline on it. -/
theorem explain_code_valid (req : ExplainRequest) (client : Client) (model : Option String)
    (h : pyStrip req.code ≠ "") :
    explain_code req client model =
      (chatAndCoerce client
        ⟨_build_messages req, resolveModel model client.default_model,
          min (max 256 req.max_tokens) 8000⟩,
       [⟨_build_messages req, resolveModel model client.default_model,
          min (max 256 req.max_tokens) 8000⟩]) := by
  unfold explain_code
  rw [if_neg (validation_guard_false req.code h)]

/-! ## The claims -/

/-- C3: for every request whose content is empty or whitespace-only and
every injected capability, `explain_code` fails immediately with the
`InvalidInput` error (`ValueError("Code must not be empty.")`) and the
capability records zero calls. -/
theorem C3_whitespace_only_rejected_before_chat (req : ExplainRequest) (client : Client)
    (model : Option String) (h : pyStrip req.code = "") :
    explain_code req client model = (Except.error PyErr.invalidInput, []) := by
  unfold explain_code
  rw [if_pos (Or.inr h)]

/-- Witness for C3 at the whitespace-only content of the repository's own
test (`test_explain_code_rejects_empty_input`). -/
theorem C3_whitespace_only_rejected_before_chat_witness :
    explain_code ⟨"   ", none, none, 8000⟩ ⟨none, fun _ => Except.ok PyVal.null⟩ none
      = (Except.error PyErr.invalidInput, []) :=
  C3_whitespace_only_rejected_before_chat _ _ _ (by decide)

/-- C5: for every caller-supplied `max_tokens` value, the budget passed to
the chat capability in the one recorded call is
`min(max(256, req.max_tokens), 8000)`. -/
theorem C5_max_tokens_clamped (req : ExplainRequest) (client : Client) (model : Option String)
    (h : pyStrip req.code ≠ "") :
    (explain_code req client model).2.map ChatCall.max_tokens
      = [min (max 256 req.max_tokens) 8000] := by
  rw [explain_code_valid req client model h]
  rfl

/-- Witness for C5: a requested budget of 10 is clamped up to 256 and a
requested budget of 999999 is clamped down to 8000. -/
theorem C5_max_tokens_clamped_witness :
    (explain_code ⟨"x = 1", none, none, 10⟩ (constClient PyVal.null) none).2.map
        ChatCall.max_tokens = [256]
    ∧ (explain_code ⟨"x = 1", none, none, 999999⟩ (constClient PyVal.null) none).2.map
        ChatCall.max_tokens = [8000] := by
  constructor
  · rw [C5_max_tokens_clamped ⟨"x = 1", none, none, 10⟩ (constClient PyVal.null) none
      (by decide)]
    decide
  · rw [C5_max_tokens_clamped ⟨"x = 1", none, none, 999999⟩ (constClient PyVal.null) none
      (by decide)]
    decide

/-- Line 116 resolves the model exactly as the amended claim C6 describes:
a non-empty override wins, then a non-empty declared default, then the
fixed fallback. -/
theorem resolveModel_eq_spec (override defModel : Option String) :
    resolveModel override defModel = pickModelSpec override defModel := by
  cases override with
  | none =>
    cases defModel with
    | none => rfl
    | some d =>
      by_cases hd : d = "" <;> simp [resolveModel, pickModelSpec, pickModelDefault, pyOrStr, hd]
  | some s =>
    by_cases hs : s = ""
    · cases defModel with
      | none => simp [resolveModel, pickModelSpec, pickModelDefault, pyOrStr, hs]
      | some d =>
        by_cases hd : d = "" <;>
          simp [resolveModel, pickModelSpec, pickModelDefault, pyOrStr, hs, hd]
    · simp [resolveModel, pickModelSpec, pickModelDefault, pyOrStr, hs]

/-- C6 counterexample: the caller explicitly supplies the override `""`,
yet the capability's declared default is what reaches the chat call — the
claimed strict precedence "explicit override if supplied" fails for a
supplied empty-string override, because line 116 tests Python truthiness,
not presence. -/
theorem C6_empty_override_counterexample :
    (explain_code ⟨"x = 1", none, none, 8000⟩
        ⟨some "client-default-model", fun _ => Except.ok PyVal.null⟩ (some "")).2.map
      ChatCall.model = ["client-default-model"]
    ∧ (explain_code ⟨"x = 1", none, none, 8000⟩
        ⟨some "client-default-model", fun _ => Except.ok PyVal.null⟩ (some "")).2.map
      ChatCall.model ≠ [""] := by
  exact ⟨rfl, by decide⟩

/-- C6 (amended): the model identifier in the one recorded chat call is
resolved by precedence among the non-empty candidates — supplied non-empty
override, then declared non-empty capability default, then the fixed
fallback `"gpt-4.1-mini"`. -/
theorem C6_model_precedence (req : ExplainRequest) (client : Client) (model : Option String)
    (h : pyStrip req.code ≠ "") :
    (explain_code req client model).2.map ChatCall.model
      = [pickModelSpec model client.default_model] := by
  rw [explain_code_valid req client model h]
  show [resolveModel model client.default_model] = _
  rw [resolveModel_eq_spec]

/-- Witness for C6: an explicit non-empty override beats a declared
default; with no override the declared default beats the fallback; with
neither, the fallback is used. -/
theorem C6_model_precedence_witness :
    (explain_code ⟨"x = 1", none, none, 8000⟩
        ⟨some "client-default-model", fun _ => Except.ok PyVal.null⟩ (some "gpt-4o-mini")).2.map
      ChatCall.model = ["gpt-4o-mini"]
    ∧ (explain_code ⟨"x = 1", none, none, 8000⟩
        ⟨some "client-default-model", fun _ => Except.ok PyVal.null⟩ none).2.map
      ChatCall.model = ["client-default-model"]
    ∧ (explain_code ⟨"x = 1", none, none, 8000⟩ (constClient PyVal.null) none).2.map
      ChatCall.model = ["gpt-4.1-mini"] := by
  refine ⟨?_, ?_, ?_⟩
  · rw [C6_model_precedence ⟨"x = 1", none, none, 8000⟩
      ⟨some "client-default-model", fun _ => Except.ok PyVal.null⟩ (some "gpt-4o-mini")
      (by decide)]
    decide
  · rw [C6_model_precedence ⟨"x = 1", none, none, 8000⟩
      ⟨some "client-default-model", fun _ => Except.ok PyVal.null⟩ none (by decide)]
    decide
  · rw [C6_model_precedence ⟨"x = 1", none, none, 8000⟩ (constClient PyVal.null) none
      (by decide)]
    decide

set_option maxRecDepth 8000 in
set_option maxHeartbeats 1000000 in
/-- C9: `_build_messages` is a deterministic pure function of the request —
equal requests give equal prompt pairs — and the pair is exactly one fixed
system instruction followed by one user message embedding the language hint
(`"unknown"` placeholder when absent or empty), the extra context (`"none"`
placeholder likewise) and the raw content fenced as a code block. -/
theorem C9_compose_deterministic_and_shaped (r s : ExplainRequest) (h : r = s) :
    _build_messages r = _build_messages s
    ∧ _build_messages r =
      [⟨"system",
        "You are a patient code tutor. Respond ONLY as JSON with keys: summary (string), steps (array of strings), pitfalls (array of strings), detected_language (string). Keep it concise and accurate."⟩,
       ⟨"user",
        "LANGUAGE HINT: " ++ pyOrStr r.language "unknown" ++ "\n" ++ "EXTRA CONTEXT: " ++
          pyOrStr r.extra_context "none" ++ "\n" ++ "CODE:" ++ "\n" ++ "```code" ++ "\n" ++
          r.code ++ "\n" ++ "```"⟩] := by
  constructor
  · rw [h]
  · simp only [_build_messages, system_msg, pyJoin, List.cons.injEq, Message.mk.injEq,
      and_true, true_and]
    refine ⟨by decide, str_eq_of_data _ _ ?_⟩
    simp only [str_append_data, List.append_assoc]

/-- Witness for C9 at the request of the repository's
`test__build_messages_formats_system_and_user`. -/
theorem C9_compose_deterministic_and_shaped_witness :
    _build_messages ⟨"def add(a,b): return a+b", some "python", some "unit test", 8000⟩
      = [⟨"system",
          "You are a patient code tutor. Respond ONLY as JSON with keys: summary (string), steps (array of strings), pitfalls (array of strings), detected_language (string). Keep it concise and accurate."⟩,
         ⟨"user",
          "LANGUAGE HINT: python\nEXTRA CONTEXT: unit test\nCODE:\n```code\ndef add(a,b): return a+b\n```"⟩] := by
  rw [(C9_compose_deterministic_and_shaped
    ⟨"def add(a,b): return a+b", some "python", some "unit test", 8000⟩
    ⟨"def add(a,b): return a+b", some "python", some "unit test", 8000⟩ rfl).2]
  rfl

/-- C8 counterexample: an envelope that carries the integer `42` at
`choices[0].message.content` makes `_extract_content` return that integer
unchanged — neither the claimed "content string" nor the string conversion
of the envelope, so extraction does not always return a string. -/
theorem C8_nonstring_content_counterexample :
    _extract_content (mkEnvelope (PyVal.int 42)) = PyVal.int 42
    ∧ isStrVal (_extract_content (mkEnvelope (PyVal.int 42))) = false :=
  ⟨rfl, rfl⟩

/-- C8 (amended): `_extract_content` is total — when the envelope carries a
value at `choices[0].message.content` that value is returned as-is (hence a
string exactly when the capability put a string there), and for any
envelope without that path the string conversion `str(response)` of the
whole envelope is returned, turning a shape mismatch into a downstream
parse failure rather than a crash. -/
theorem C8_extract_content_total (response : PyVal) :
    (∀ c, envContent response = some c → _extract_content response = c)
    ∧ (envContent response = none →
        _extract_content response = PyVal.str (pyStr response)) := by
  unfold _extract_content
  cases h : envContent response with
  | none => exact ⟨fun c hc => by simp at hc, fun _ => rfl⟩
  | some c0 =>
    exact ⟨fun c hc => Option.some.inj hc, fun hn => by simp at hn⟩

/-- Witness for C8: a string-shaped envelope yields its content string, and
the shapeless envelope of the repository's
`test_extract_content_fallback_nonstandard_response_shape` yields the
string conversion of the whole dict. -/
theorem C8_extract_content_total_witness :
    _extract_content (strEnvelope "not-json") = PyVal.str "not-json"
    ∧ _extract_content (PyVal.dict [("foo", PyVal.str "bar")])
      = PyVal.str (pyStr (PyVal.dict [("foo", PyVal.str "bar")])) :=
  ⟨(C8_extract_content_total (strEnvelope "not-json")).1 (PyVal.str "not-json") rfl,
   (C8_extract_content_total (PyVal.dict [("foo", PyVal.str "bar")])).2 rfl⟩

/-- Stringifying a list of values that are already strings is the identity. -/
theorem map_pyStr_str (l : List String) : (l.map PyVal.str).map pyStr = l := by
  induction l with
  | nil => rfl
  | cons x xs ih => simpa [pyStr] using ih

/-- Unfolded form of `coerce` on a dict payload. -/
theorem coerce_dict_eq (kvs : List (String × PyVal)) :
    coerce (PyVal.dict kvs) = Except.ok
      ⟨(if pyStrip (pyStr (pyGetOr kvs "summary" (PyVal.str ""))) = ""
          then "No summary provided."
          else pyStrip (pyStr (pyGetOr kvs "summary" (PyVal.str "")))),
       (match (if pyTruthy (pyGet kvs "steps") then pyGet kvs "steps" else PyVal.list []) with
        | PyVal.list xs => xs
        | v => [PyVal.str (pyStr v)]).map pyStr,
       (match (if pyTruthy (pyGet kvs "pitfalls") then pyGet kvs "pitfalls" else PyVal.list [])
          with
        | PyVal.list xs => xs
        | v => [PyVal.str (pyStr v)]).map pyStr,
       (if pyTruthy (pyGet kvs "detected_language")
          then some (pyStr (pyGet kvs "detected_language")) else none)⟩ := rfl

/-- The truthiness-guarded branch of the sequence coercion agrees with the
amended specification `coerceSeqSpec` on a present field. -/
theorem seq_coerce_val (v : PyVal) :
    (match (if pyTruthy v then v else PyVal.list []) with
     | PyVal.list xs => xs
     | w => [PyVal.str (pyStr w)]).map pyStr = coerceSeqSpec (some v) := by
  cases hv : pyTruthy v with
  | false => simp [coerceSeqSpec, hv]
  | true => cases v <;> simp [coerceSeqSpec, hv, pyStr]

/-- The `steps` and `pitfalls` fields of a coerced dict payload are the
`coerceSeqSpec` of the corresponding lookups. -/
theorem coerce_seq_fields (kvs : List (String × PyVal)) (e : Explanation)
    (h : coerce (PyVal.dict kvs) = Except.ok e) :
    e.steps = coerceSeqSpec (kvs.lookup "steps")
    ∧ e.pitfalls = coerceSeqSpec (kvs.lookup "pitfalls") := by
  rw [coerce_dict_eq] at h
  have he := (Except.ok.inj h).symm
  subst he
  constructor
  · show (match _ with
      | PyVal.list xs => xs
      | v => [PyVal.str (pyStr v)]).map pyStr = _
    cases hl : kvs.lookup "steps" with
    | none => simp [pyGet, pyGetOr, hl, pyTruthy, coerceSeqSpec]
    | some v => rw [show pyGet kvs "steps" = v by simp [pyGet, pyGetOr, hl]]; exact seq_coerce_val v
  · show (match _ with
      | PyVal.list xs => xs
      | v => [PyVal.str (pyStr v)]).map pyStr = _
    cases hl : kvs.lookup "pitfalls" with
    | none => simp [pyGet, pyGetOr, hl, pyTruthy, coerceSeqSpec]
    | some v =>
      rw [show pyGet kvs "pitfalls" = v by simp [pyGet, pyGetOr, hl]]
      exact seq_coerce_val v

/-- C4 counterexample: the payload `{"summary": "s", "steps": 0}` has a
`steps` field that is present and is a scalar, yet the coercion yields the
empty sequence rather than the claimed one-element sequence `[str(0)]`,
because line 142 (`data.get("steps") or []`) tests Python truthiness and
`0` is falsy. -/
theorem C4_falsy_scalar_counterexample :
    coerce (PyVal.dict [("summary", PyVal.str "s"), ("steps", PyVal.int 0)])
      = Except.ok ⟨"s", [], [], none⟩
    ∧ ([] : List String) ≠ [pyStr (PyVal.int 0)] :=
  ⟨rfl, by decide⟩

/-- C4 (amended): the coercion step always produces sequences of strings
for `Result.steps` and `Result.pitfalls`: a present truthy sequence has
each element stringified; a present truthy non-sequence is wrapped into a
one-element sequence of its string form; an absent field — or a present
falsy one (`None`, `False`, `0`, the empty string, the empty sequence, the
empty object) — yields the empty sequence. -/
theorem C4_coercion_invariant (kvs : List (String × PyVal)) (e : Explanation)
    (h : coerce (PyVal.dict kvs) = Except.ok e) :
    e.steps = coerceSeqSpec (kvs.lookup "steps")
    ∧ e.pitfalls = coerceSeqSpec (kvs.lookup "pitfalls") :=
  coerce_seq_fields kvs e h

/-- Witness for C4 at the spec's scalar-coercion example payload
`{steps: "x", pitfalls: "y"}`. -/
theorem C4_coercion_invariant_witness :
    (⟨"No summary provided.", ["x"], ["y"], none⟩ : Explanation).steps
      = coerceSeqSpec (([("steps", PyVal.str "x"), ("pitfalls", PyVal.str "y")] :
          List (String × PyVal)).lookup "steps")
    ∧ (⟨"No summary provided.", ["x"], ["y"], none⟩ : Explanation).pitfalls
      = coerceSeqSpec (([("steps", PyVal.str "x"), ("pitfalls", PyVal.str "y")] :
          List (String × PyVal)).lookup "pitfalls") :=
  C4_coercion_invariant [("steps", PyVal.str "x"), ("pitfalls", PyVal.str "y")]
    ⟨"No summary provided.", ["x"], ["y"], none⟩ rfl

/-- C7: the coercion is idempotent on already-normalized payloads — when
the `steps` and `pitfalls` fields are already sequences of strings, the
coerced result carries exactly those strings, element for element and in
order. -/
theorem C7_coerce_idempotent_on_string_sequences (kvs : List (String × PyVal))
    (ss ps : List String) (e : Explanation)
    (hs : kvs.lookup "steps" = some (PyVal.list (ss.map PyVal.str)))
    (hp : kvs.lookup "pitfalls" = some (PyVal.list (ps.map PyVal.str)))
    (h : coerce (PyVal.dict kvs) = Except.ok e) :
    e.steps = ss ∧ e.pitfalls = ps := by
  obtain ⟨h1, h2⟩ := coerce_seq_fields kvs e h
  rw [hs] at h1
  rw [hp] at h2
  constructor
  · rw [h1]
    cases ss with
    | nil => rfl
    | cons x xs =>
      simp [coerceSeqSpec, pyTruthy]
      exact ⟨rfl, by simpa [List.map_map] using map_pyStr_str xs⟩
  · rw [h2]
    cases ps with
    | nil => rfl
    | cons x xs =>
      simp [coerceSeqSpec, pyTruthy]
      exact ⟨rfl, by simpa [List.map_map] using map_pyStr_str xs⟩

/-- Witness for C7 at a payload whose fields are already string sequences. -/
theorem C7_coerce_idempotent_on_string_sequences_witness :
    (⟨"ok", ["a", "b"], ["c"], none⟩ : Explanation).steps = ["a", "b"]
    ∧ (⟨"ok", ["a", "b"], ["c"], none⟩ : Explanation).pitfalls = ["c"] :=
  C7_coerce_idempotent_on_string_sequences
    [("summary", PyVal.str "ok"),
     ("steps", PyVal.list [PyVal.str "a", PyVal.str "b"]),
     ("pitfalls", PyVal.list [PyVal.str "c"])]
    ["a", "b"] ["c"] ⟨"ok", ["a", "b"], ["c"], none⟩ rfl rfl rfl

/-- On a client that always answers with a string-content envelope, the
post-chat pipeline is the parse-then-coerce composition on that string. -/
theorem chatAndCoerce_const_str (s : String) (call : ChatCall) :
    chatAndCoerce (constClient (strEnvelope s)) call =
      match extractJson s with
      | .error e => .error e
      | .ok data => coerce data := rfl

/-- C10: for every raw model output that parses as JSON but is not a JSON
object (an array, bare number, string, boolean or null), `explain_code`
neither returns a `Result` nor raises the typed `InvalidModelOutput`
failure: the field mapping applies `.get` to the non-object value and fails
with the untyped `AttributeError`. -/
theorem C10_nonobject_payload_attribute_error (req : ExplainRequest) (model : Option String)
    (s : String) (v : PyVal) (h : pyStrip req.code ≠ "")
    (hp : json_loads s = some v) (hd : isDictVal v = false) :
    (explain_code req (constClient (strEnvelope s)) model).1
      = Except.error PyErr.attributeError := by
  rw [explain_code_valid req (constClient (strEnvelope s)) model h,
    chatAndCoerce_const_str]
  unfold extractJson
  rw [hp]
  show coerce v = _
  cases v with
  | dict kvs => simp [isDictVal] at hd
  | null => rfl
  | bool b => rfl
  | int n => rfl
  | str s2 => rfl
  | list xs => rfl

/-- Witness for C10: the valid-JSON non-object raw output `[1, 2]` makes
the run fail with the untyped attribute error. -/
theorem C10_nonobject_payload_attribute_error_witness :
    (explain_code ⟨"x = 1", none, none, 8000⟩
        (constClient (strEnvelope "[1, 2]")) none).1
      = Except.error PyErr.attributeError :=
  C10_nonobject_payload_attribute_error ⟨"x = 1", none, none, 8000⟩ none "[1, 2]"
    (PyVal.list [PyVal.int 1, PyVal.int 2]) (by decide) rfl rfl

/-- Equation: a successful direct parse short-circuits the extract step. -/
theorem extractJson_eq_direct (content : String) (d : PyVal)
    (h : json_loads content = some d) : extractJson content = Except.ok d := by
  unfold extractJson
  rw [h]

/-- Equation: with a failing direct parse and no salvage window, the
extract step fails with the typed `InvalidModelOutput` failure carrying the
truncated diagnostic. -/
theorem extractJson_eq_nosalvage (content : String)
    (h1 : json_loads content = none) (h2 : salvage content = none) :
    extractJson content = Except.error (PyErr.invalidModelOutput (content.take 2000)) := by
  unfold extractJson
  rw [h1, h2]

/-- Equation: with a failing direct parse and a salvage window present, the
extract step is decided by the parse of the window alone. -/
theorem extractJson_eq_salvage (content w : String)
    (h1 : json_loads content = none) (h2 : salvage content = some w) :
    extractJson content =
      (match json_loads w with
       | some d => Except.ok d
       | none => Except.error PyErr.jsonDecodeError) := by
  unfold extractJson
  rw [h1, h2]

/-- C1 counterexample: on the raw text `"{bad}"` the direct parse fails, a
brace pair exists with the closing brace after the opening one, and the
salvage parse of the whole window fails too — yet the extract step does not
fail with the `ParseFailure` carrying the 2000-character diagnostic: the
salvage `json.loads` raises outside the `except` handler and the decoder's
own error propagates. -/
theorem C1_salvage_failure_counterexample :
    extractJson "\x7bbad\x7d" = Except.error PyErr.jsonDecodeError
    ∧ PyErr.jsonDecodeError ≠ PyErr.invalidModelOutput (String.take "\x7bbad\x7d" 2000) :=
  ⟨rfl, by decide⟩

/-- C1 (amended): the extract step attempts a direct JSON parse first; on
failure, when the raw text has a first `{` and a last `}` with the closing
brace after the opening one, the inclusive substring between them is parsed
instead, and extract never succeeds by any other means; when no such brace
pair exists it fails with the `ParseFailure` (kind `InvalidModelOutput`)
carrying the first 2000 characters of the raw text as a diagnostic; but
when the salvage parse itself fails, the underlying JSON decode error
propagates instead of that `ParseFailure`. -/
theorem C1_extract_salvage_characterization (content : String) :
    (∀ d, extractJson content = Except.ok d ↔
      (json_loads content = some d
        ∨ (json_loads content = none
            ∧ ∃ w, salvage content = some w ∧ json_loads w = some d)))
    ∧ (json_loads content = none → salvage content = none →
        extractJson content = Except.error (PyErr.invalidModelOutput (content.take 2000)))
    ∧ (∀ w, json_loads content = none → salvage content = some w → json_loads w = none →
        extractJson content = Except.error PyErr.jsonDecodeError) := by
  refine ⟨fun d => ⟨fun hok => ?_, fun hcases => ?_⟩,
    fun h1 h2 => extractJson_eq_nosalvage content h1 h2,
    fun w h1 h2 h3 => by rw [extractJson_eq_salvage content w h1 h2, h3]⟩
  · cases h1 : json_loads content with
    | some d0 =>
      rw [extractJson_eq_direct content d0 h1] at hok
      exact Or.inl (congrArg some (Except.ok.inj hok))
    | none =>
      cases h2 : salvage content with
      | none =>
        rw [extractJson_eq_nosalvage content h1 h2] at hok
        exact Except.noConfusion hok
      | some w =>
        rw [extractJson_eq_salvage content w h1 h2] at hok
        cases h3 : json_loads w with
        | some d1 =>
          rw [h3] at hok
          exact Or.inr ⟨rfl, w, rfl, Except.ok.inj hok ▸ h3⟩
        | none =>
          rw [h3] at hok
          exact Except.noConfusion hok
  · rcases hcases with hs | ⟨hn, w, hw, hjw⟩
    · exact extractJson_eq_direct content d hs
    · rw [extractJson_eq_salvage content w hn hw, hjw]

/-- Witness for C1 at the unparseable, brace-free raw text of the
repository's `test_bad_json_raises_value_error`. -/
theorem C1_extract_salvage_characterization_witness :
    extractJson "not-json"
      = Except.error (PyErr.invalidModelOutput (String.take "not-json" 2000)) :=
  (C1_extract_salvage_characterization "not-json").2.1 rfl rfl

/-- On a dict payload the coerced summary is never empty: either the
stripped upstream summary was non-empty, or the fixed placeholder is
substituted. -/
theorem coerce_ok_summary (d : PyVal) (e : Explanation) (h : coerce d = Except.ok e) :
    e.summary ≠ "" := by
  cases d with
  | dict kvs =>
    rw [coerce_dict_eq] at h
    have he := (Except.ok.inj h).symm
    subst he
    show (if pyStrip (pyStr (pyGetOr kvs "summary" (PyVal.str ""))) = ""
        then "No summary provided."
        else pyStrip (pyStr (pyGetOr kvs "summary" (PyVal.str "")))) ≠ ""
    by_cases hs : pyStrip (pyStr (pyGetOr kvs "summary" (PyVal.str ""))) = ""
    · rw [if_pos hs]
      decide
    · rw [if_neg hs]
      exact hs
  | null => exact Except.noConfusion h
  | bool b => exact Except.noConfusion h
  | int n => exact Except.noConfusion h
  | str s => exact Except.noConfusion h
  | list xs => exact Except.noConfusion h

/-- The only error the coercion step raises is the attribute error. -/
theorem coerce_error_shape (d : PyVal) (err : PyErr) (h : coerce d = Except.error err) :
    err = PyErr.attributeError := by
  cases d with
  | dict kvs =>
    rw [coerce_dict_eq] at h
    exact Except.noConfusion h
  | null => exact (Except.error.inj h).symm
  | bool b => exact (Except.error.inj h).symm
  | int n => exact (Except.error.inj h).symm
  | str s => exact (Except.error.inj h).symm
  | list xs => exact (Except.error.inj h).symm

/-- The extract step fails only with the JSON decode error or the typed
`InvalidModelOutput` failure. -/
theorem extractJson_error_shape (content : String) (err : PyErr)
    (h : extractJson content = Except.error err) :
    err = PyErr.jsonDecodeError ∨ ∃ dg, err = PyErr.invalidModelOutput dg := by
  cases h1 : json_loads content with
  | some d =>
    rw [extractJson_eq_direct content d h1] at h
    exact Except.noConfusion h
  | none =>
    cases h2 : salvage content with
    | none =>
      rw [extractJson_eq_nosalvage content h1 h2] at h
      exact Or.inr ⟨content.take 2000, (Except.error.inj h).symm⟩
    | some w =>
      rw [extractJson_eq_salvage content w h1 h2] at h
      cases h3 : json_loads w with
      | some d =>
        rw [h3] at h
        exact Except.noConfusion h
      | none =>
        rw [h3] at h
        exact Or.inl (Except.error.inj h).symm

/-- Equation: an error raised inside the capability propagates. -/
theorem chatAndCoerce_chat_error (client : Client) (call : ChatCall) (n : Nat)
    (h : client.chat call = Except.error n) :
    chatAndCoerce client call = Except.error (PyErr.clientError n) := by
  unfold chatAndCoerce
  rw [h]

/-- Equation: with a string extracted from the envelope, the pipeline is
parse-then-coerce on that string. -/
theorem chatAndCoerce_str (client : Client) (call : ChatCall) (response : PyVal)
    (content : String) (h : client.chat call = Except.ok response)
    (hx : _extract_content response = PyVal.str content) :
    chatAndCoerce client call =
      (match extractJson content with
       | .error e => Except.error e
       | .ok data => coerce data) := by
  unfold chatAndCoerce
  simp only [h]
  rw [hx]

/-- Equation: with a non-string extracted from the envelope, `json.loads`
raises the type error. -/
theorem chatAndCoerce_nonstr (client : Client) (call : ChatCall) (response : PyVal)
    (h : client.chat call = Except.ok response)
    (hx : isStrVal (_extract_content response) = false) :
    chatAndCoerce client call = Except.error PyErr.typeError := by
  unfold chatAndCoerce
  simp only [h]
  cases hv : _extract_content response with
  | str s =>
    rw [hv] at hx
    exact absurd hx (by simp [isStrVal])
  | null => rfl
  | bool b => rfl
  | int n => rfl
  | list xs => rfl
  | dict kvs => rfl

/-- Classification of the post-chat pipeline: a returned result has a
non-empty summary, and no raised error is the `InvalidInput` one. -/
theorem chatAndCoerce_classification (client : Client) (call : ChatCall) :
    (∀ e, chatAndCoerce client call = Except.ok e → e.summary ≠ "")
    ∧ (∀ err, chatAndCoerce client call = Except.error err → err ≠ PyErr.invalidInput) := by
  cases hc : client.chat call with
  | error n =>
    rw [chatAndCoerce_chat_error client call n hc]
    exact ⟨fun e he => Except.noConfusion he,
      fun err herr => by rw [← Except.error.inj herr]; simp⟩
  | ok response =>
    cases hv : _extract_content response with
    | str content =>
      rw [chatAndCoerce_str client call response content hc hv]
      cases hj : extractJson content with
      | error perr =>
        refine ⟨fun e he => Except.noConfusion he, fun err herr => ?_⟩
        rw [← Except.error.inj herr]
        rcases extractJson_error_shape content perr hj with hsh | ⟨dg, hsh⟩ <;>
          subst hsh <;> simp
      | ok data =>
        exact ⟨fun e he => coerce_ok_summary data e he,
          fun err herr => by rw [coerce_error_shape data err herr]; decide⟩
    | null =>
      rw [chatAndCoerce_nonstr client call response hc (by rw [hv]; rfl)]
      exact ⟨fun e he => Except.noConfusion he,
        fun err herr => by rw [← Except.error.inj herr]; decide⟩
    | bool b =>
      rw [chatAndCoerce_nonstr client call response hc (by rw [hv]; rfl)]
      exact ⟨fun e he => Except.noConfusion he,
        fun err herr => by rw [← Except.error.inj herr]; decide⟩
    | int n =>
      rw [chatAndCoerce_nonstr client call response hc (by rw [hv]; rfl)]
      exact ⟨fun e he => Except.noConfusion he,
        fun err herr => by rw [← Except.error.inj herr]; decide⟩
    | list xs =>
      rw [chatAndCoerce_nonstr client call response hc (by rw [hv]; rfl)]
      exact ⟨fun e he => Except.noConfusion he,
        fun err herr => by rw [← Except.error.inj herr]; decide⟩
    | dict kvs =>
      rw [chatAndCoerce_nonstr client call response hc (by rw [hv]; rfl)]
      exact ⟨fun e he => Except.noConfusion he,
        fun err herr => by rw [← Except.error.inj herr]; decide⟩

/-- C2 counterexample: with non-empty content and a capability that answers
(without raising) the raw text `"{bad}"`, the run neither returns a result,
nor raises the typed `InvalidModelOutput`, nor propagates a capability
error — it fails with the untyped JSON decode error of the failing salvage
parse, an outcome outside everything the claim permits. -/
theorem C2_untyped_failure_counterexample :
    allowedByClaimC2 (explain_code ⟨"x = 1", none, none, 8000⟩
        (constClient (strEnvelope "\x7bbad\x7d")) none).1 = false
    ∧ (explain_code ⟨"x = 1", none, none, 8000⟩
        (constClient (strEnvelope "\x7bbad\x7d")) none).1
      = Except.error PyErr.jsonDecodeError :=
  ⟨rfl, rfl⟩

/-- C2 (amended): for every request with non-whitespace content and every
injected capability, the run returns a result whose summary is non-empty
(substituting the fixed placeholder when the parsed summary strips to
nothing), or raises the typed `InvalidModelOutput` parse failure, or
propagates a capability error, or fails with one of the untyped errors of
the parse pipeline (the JSON decode error of a failing salvage parse, the
attribute error on a non-object payload, the type error on non-string
extracted content); it never returns a null result and never fails with
`InvalidInput`. -/
theorem C2_run_never_silent (req : ExplainRequest) (client : Client) (model : Option String)
    (h : pyStrip req.code ≠ "") :
    (∀ e, (explain_code req client model).1 = Except.ok e → e.summary ≠ "")
    ∧ (∀ err, (explain_code req client model).1 = Except.error err →
        err ≠ PyErr.invalidInput) := by
  rw [explain_code_valid req client model h]
  exact chatAndCoerce_classification client _

/-- Witness for C2: a run over a well-formed capability answer returns the
parsed summary, which the theorem certifies to be non-empty. -/
theorem C2_run_never_silent_witness :
    (⟨"Adds two numbers.", [], [], none⟩ : Explanation).summary ≠ "" :=
  (C2_run_never_silent ⟨"x = 1", none, none, 8000⟩
      (constClient (strEnvelope "\x7b\x22summary\x22: \x22Adds two numbers.\x22\x7d")) none
      (by decide)).1
    ⟨"Adds two numbers.", [], [], none⟩ rfl

end CodeExplainer
